import Mathlib

/-!
Verification of the Kurasuta FrontendApi service (`frontend-api.py`).

The HTTP handlers are embedded as pure Lean functions over an explicit
database state.  A handler's outcome is a `HandlerResult`: a successful JSON
payload, a raised `InvalidUsage` (the service's client-error exception, which
the registered error handler turns into a client-error response with the
given reason string and status code), a raised `NotFound`, or an uncaught
Python exception (`fatal`), which Flask would surface as a server crash
(HTTP 500).

Library modules of the repository that are imported by `frontend-api.py` but
whose sources are not part of this snapshot (`lib.repository`,
`lib.flask`, `lib.sample`) are modelled from the specification; each such
definition carries a doc comment saying so.  JSON encoding (`jsonify`,
`JsonFactory`) is the identity on the payload here, as the spec excludes
response encoding from the core.
-/

/-- An uncaught Python exception kind relevant to the embedded handlers. -/
inductive PyError where
  | valueError : PyError
  | indexError : PyError
deriving DecidableEq, Repr

/-- Outcome of one embedded HTTP handler. -/
inductive HandlerResult (α : Type) where
  | ok : α → HandlerResult α
  | invalidUsage : String → Nat → HandlerResult α
  | notFound : HandlerResult α
  | fatal : PyError → HandlerResult α
deriving DecidableEq, Repr

/-- True exactly on the `invalidUsage` (client validation error) outcome. -/
def HandlerResult.isValidationError {α : Type} : HandlerResult α → Bool
  | .invalidUsage _ _ => true
  | _ => false

/-- A point in time, modelled as a calendar year together with an offset
inside that year; the timestamp literal `'Y-01-01 00:00:00'` is the zero
offset of year `Y`.  Comparison is lexicographic, matching timestamp
comparison in the relational store. -/
structure Timestamp where
  year : Int
  ofs : Nat
deriving DecidableEq, Repr

/-- Lexicographic `<=` on timestamps. -/
def Timestamp.le (a b : Timestamp) : Bool :=
  decide (a.year < b.year) || (decide (a.year = b.year) && decide (a.ofs ≤ b.ofs))

/-- Lexicographic `<` on timestamps. -/
def Timestamp.lt (a b : Timestamp) : Bool :=
  decide (a.year < b.year) || (decide (a.year = b.year) && decide (a.ofs < b.ofs))

/-- The timestamp denoted by the SQL literal `'%i-01-01 00:00:00'` built by
string interpolation from the integer year: the first instant of that year. -/
def jan1 (y : Int) : Timestamp := ⟨y, 0⟩

/-- One row of the `sample` table (spec §3, §6): the `id` column is modelled
as nullable so that `COUNT(id)` versus `COUNT(*)` can be distinguished. -/
structure Sample where
  id : Option Int
  hash_sha256 : String
  hash_sha1 : String
  hash_md5 : String
  build_timestamp : Option Timestamp
  section_hash : String
deriving DecidableEq, Repr

/-- The visible database state: the `sample` table and the `api_key`
credential table, in storage order. -/
structure Db where
  samples : List Sample
  api_keys : List String
deriving DecidableEq, Repr

/-- Modelled from the spec: `SampleRepository.by_hash_sha256` from
`lib.repository` (not in the snapshot).  Per §4.3, an exact-match lookup on
the algorithm-specific hash column that returns absent when no row matches. -/
def by_hash_sha256 (db : Db) (h : String) : Option Sample :=
  db.samples.find? (fun s => s.hash_sha256 == h)

/-- Modelled from the spec: `SampleRepository.by_hash_sha1` from
`lib.repository` (not in the snapshot); exact-match lookup on `hash_sha1`. -/
def by_hash_sha1 (db : Db) (h : String) : Option Sample :=
  db.samples.find? (fun s => s.hash_sha1 == h)

/-- Modelled from the spec: `SampleRepository.by_hash_md5` from
`lib.repository` (not in the snapshot); exact-match lookup on `hash_md5`. -/
def by_hash_md5 (db : Db) (h : String) : Option Sample :=
  db.samples.find? (fun s => s.hash_md5 == h)

/-- Modelled from the spec: `ApiKeyRepository.exists` from `lib.repository`
(not in the snapshot).  Per §4.5, a pure exact-match existence check against
the credential table. -/
def apiKeyExists (db : Db) (k : String) : Bool :=
  db.api_keys.contains k

/-- Modelled from the spec: `SampleRepository.ids_by_hashes` from
`lib.repository` (not in the snapshot).  Per §4.3 it resolves a list of hash
strings to internal identifiers, silently dropping unmatched hashes. -/
def ids_by_hashes (db : Db) (hs : List String) : List Int :=
  hs.filterMap (fun h =>
    (db.samples.find? (fun s =>
      s.hash_sha256 == h || s.hash_sha1 == h || s.hash_md5 == h)).bind (·.id))

/-- Modelled from the spec: `SampleRepository.by_ids` from `lib.repository`
(not in the snapshot).  Per §4.3 it fetches the full records for the
resolved identifiers. -/
def by_ids (db : Db) (ids : List Int) : List Sample :=
  db.samples.filter (fun s =>
    match s.id with
    | some i => ids.contains i
    | none => false)

/-- Modelled from the spec: `SampleRepository.random_by_id` from
`lib.repository` (not in the snapshot).  Per §4.4 the multi-sample draw
returns `count` records at independently drawn uniform offsets into the
visible table, with replacement; the draw is made explicit by a random
stream `rng`. -/
def random_by_id (db : Db) (rng : Nat → Nat) (count : Int) : List Sample :=
  (List.range count.toNat).filterMap (fun i =>
    db.samples.get? (rng i % db.samples.length))

/-- The Python constant `string.hexdigits`. -/
def hexdigits : List Char := "0123456789abcdefABCDEF".toList

/-- Membership test `c in string.hexdigits`. -/
def isHexChar (c : Char) : Bool := hexdigits.contains c

/-- Integer value of a list of decimal digit characters. -/
def digitsVal (ds : List Char) : Int :=
  ds.foldl (fun n c => 10 * n + ((c.toNat - 48 : Nat) : Int)) 0

/-- Model of the Python built-in `int(s)` applied to a URL path argument:
`none` means the call raises `ValueError`.  An optional sign followed by one
or more decimal digits is accepted; surrounding whitespace and digit-group
underscores also accepted by CPython are not modelled, as no claim depends
on them. -/
def pyInt (s : String) : Option Int :=
  match s.toList with
  | [] => none
  | c :: rest =>
    if c = '-' then
      if rest ≠ [] ∧ rest.all Char.isDigit then some (- digitsVal rest) else none
    else if c = '+' then
      if rest ≠ [] ∧ rest.all Char.isDigit then some (digitsVal rest) else none
    else
      if (c :: rest).all Char.isDigit then some (digitsVal (c :: rest)) else none

/-- Model of Python `random.randint(a, b)`: raises `ValueError` when the
range `[a, b]` is empty, otherwise returns a member of `[a, b]`, chosen here
by an explicit seed so that every possible draw is some seed's value. -/
def randint (seed : Nat) (a b : Int) : Except PyError Int :=
  if b < a then .error .valueError
  else .ok (a + (seed : Int) % (b - a + 1))

/-- Handler `get_sample` (`GET /sample/<hash>`, lines 66–82): validates the
hash string, dispatches on its length to the matching hash-column lookup,
raises `NotFound` when the lookup is absent, otherwise returns the sample. -/
def get_sample (db : Db) (hash : String) : HandlerResult Sample :=
  if hash = "" then .invalidUsage "Hash empty" 400
  else if !(hash.toList.all isHexChar) then
    .invalidUsage "Hash may only contain hex chars" 400
  else
    match (if hash.length = 64 then some (by_hash_sha256 db hash)
      else if hash.length = 32 then some (by_hash_md5 db hash)
      else if hash.length = 40 then some (by_hash_sha1 db hash)
      else none) with
    | none =>
      .invalidUsage "Hash is not of any of the following lengths: 64, 32, 40" 400
    | some none => .notFound
    | some (some sample) => .ok sample

/-- The algorithm classification implicit in `get_sample`'s length dispatch. -/
inductive HashAlgo where
  | md5 : HashAlgo
  | sha1 : HashAlgo
  | sha256 : HashAlgo
deriving DecidableEq, Repr

/-- Which hash algorithm `get_sample` attributes to a string, read off the
same length dispatch (lines 72–78). -/
def hash_algorithm (h : String) : Option HashAlgo :=
  if h.length = 64 then some .sha256
  else if h.length = 32 then some .md5
  else if h.length = 40 then some .sha1
  else none

/-- The outcome `get_sample` produces once a lookup on the classified hash
column has been performed (lines 80–82). -/
def lookupResult : Option Sample → HandlerResult Sample
  | none => .notFound
  | some s => .ok s

/-- Handler `stats_count` (`GET /stats/count`, lines 90–95): the
`SELECT COUNT(id) FROM sample` aggregate; SQL `COUNT(column)` counts the rows
whose column value is not NULL. -/
def stats_count (db : Db) : Int :=
  ((db.samples.filter (fun s => s.id.isSome)).length : Nat)

/-- Handler `stats_count_sample` (`GET /stats/count/sample`, lines 134–139):
the `SELECT COUNT(*) FROM sample` aggregate, which counts all rows. -/
def stats_count_sample (db : Db) : Int :=
  (db.samples.length : Nat)

/-- The WHERE predicate of the count query of `random_sample_by_year`
(lines 153–157): `'%i-01-01 00:00:00' <= build_timestamp AND
build_timestamp < '%i-01-01 00:00:00'`, interpolated with `year` and
`year + 1`. -/
def countWhere (year : Int) (t : Timestamp) : Bool :=
  Timestamp.le (jan1 year) t && Timestamp.lt t (jan1 (year + 1))

/-- The WHERE predicate of the offset fetch query of `random_sample_by_year`
(lines 160–166): `'%i-01-01 00:00:00' <= build_timestamp AND
build_timestamp < '%i-01-01 00:00:00'`, interpolated with `year` and
`year + 1`. -/
def fetchWhere (year : Int) (t : Timestamp) : Bool :=
  Timestamp.le (jan1 year) t && Timestamp.lt t (jan1 (year + 1))

/-- Row-level filter for a year-bounded query: SQL comparisons against a
NULL `build_timestamp` yield unknown, so such rows are excluded. -/
def rowIn (w : Int → Timestamp → Bool) (year : Int) (s : Sample) : Bool :=
  match s.build_timestamp with
  | none => false
  | some t => w year t

/-- Handler `random_sample_by_year` (`GET /random_sample/by_year/<year>`,
lines 142–168).  The two statements of the count-then-offset draw and the
final hash resolution are separate store round-trips without a snapshot
guarantee, so each sees its own table state (`dbCount`, `dbFetch`,
`dbResolve`); they coincide when no concurrent write intervenes. -/
def random_sample_by_year (dbCount dbFetch dbResolve : Db) (seed : Nat)
    (year_s : String) : HandlerResult (Option Sample) :=
  match pyInt year_s with
  | none => .invalidUsage "Given year is not an integer" 400
  | some year =>
    if year < 1970 then .invalidUsage "Given year should be above 1970" 400
    else if year > 3000 then .invalidUsage "Given year should be below 3000" 400
    else
      match randint seed 0
        (((dbCount.samples.filter (rowIn countWhere year)).length : Int) - 1) with
      | .error e => .fatal e
      | .ok rand =>
        match ((dbFetch.samples.filter (rowIn fetchWhere year)).drop rand.toNat).take 1 with
        | [] => .fatal .indexError
        | row :: _ => .ok (by_hash_sha256 dbResolve row.hash_sha256)

/-- Handler `random_samples` (`GET /random_sample/<count>`, lines 171–187).
`key` is the `X-ApiKey` request header (`none` when absent); `fmt` models
`lib.flask.validate_api_key` — modelled from the spec (§4.5, §7): a purely
syntactic format check whose failure raises a validation error; the concrete
format is not given by the spec, so it is a parameter. -/
def random_samples (fmt : String → Bool) (rng : Nat → Nat) (db : Db)
    (key : Option String) (count_s : String) : HandlerResult (List Sample) :=
  match pyInt count_s with
  | none => .invalidUsage "Given count is not an integer" 400
  | some count =>
    if count ≤ 0 then .invalidUsage "Given count should be above 0" 400
    else if count > 50 then
      let api_key := key.getD ""
      if api_key = "" then
        .invalidUsage "Given count should be below 50 or you have to pass an API key" 400
      else if !(fmt api_key) then .invalidUsage "API key format invalid" 400
      else if !(apiKeyExists db api_key) then
        .invalidUsage "API key does not exist" 400
      else .ok (random_by_id db rng count)
    else .ok (random_by_id db rng count)

/-- The parts of a `POST /bulk/sample` request the handler reads: the
`X-ApiKey` header and the uploaded `hashes` file (a list of hash strings),
each `none` when absent. -/
structure BulkRequest where
  api_key_header : Option String
  hashes_file : Option (List String)
deriving DecidableEq, Repr

/-- Handler `bulk` (`POST /bulk/sample`, lines 198–210).  `fmt` models
`lib.flask.validate_api_key` as in `random_samples`.  The Python truthiness
test `if not api_key` treats a missing and an empty header alike. -/
def bulk (fmt : String → Bool) (db : Db) (req : BulkRequest) :
    HandlerResult (List Sample) :=
  let api_key := req.api_key_header.getD ""
  if api_key = "" then .invalidUsage "API key required for this action" 400
  else if !(fmt api_key) then .invalidUsage "API key format invalid" 400
  else
    match req.hashes_file with
    | none => .invalidUsage "Field \"hashes\" does not exist" 400
    | some hashes => .ok (by_ids db (ids_by_hashes db hashes))

/-- The empty database. -/
def emptyDb : Db := ⟨[], []⟩

/-- A sample built in 2020. -/
def sample2020a : Sample :=
  { id := some 1
    hash_sha256 := "a1"
    hash_sha1 := "b1"
    hash_md5 := "c1"
    build_timestamp := some ⟨2020, 100⟩
    section_hash := "s1" }

/-- A second sample built in 2020. -/
def sample2020b : Sample :=
  { id := some 2
    hash_sha256 := "a2"
    hash_sha1 := "b2"
    hash_md5 := "c2"
    build_timestamp := some ⟨2020, 200⟩
    section_hash := "s2" }

/-- A third sample built in 2020. -/
def sample2020c : Sample :=
  { id := some 3
    hash_sha256 := "a3"
    hash_sha1 := "b3"
    hash_md5 := "c3"
    build_timestamp := some ⟨2020, 300⟩
    section_hash := "s3" }

/-- A corpus whose samples were all built in 2020. -/
def db2020 : Db := ⟨[sample2020a, sample2020b, sample2020c], []⟩

/-- Claim C1 (code bug, scenario of spec §8): a corpus with three samples
built in 2020 has zero samples with `build_timestamp` in
`[2021-01-01, 2022-01-01)`; on `GET /random_sample/by_year/2021` the handler
reaches `random.randint(0, -1)`, which raises an uncaught `ValueError` — a
crash, not the distinguishable empty-result outcome the claim requires. -/
theorem c1_empty_year_crashes :
    (db2020.samples.filter (rowIn countWhere 2021)).length = 0 ∧
    randint 0 0 (((db2020.samples.filter (rowIn countWhere 2021)).length : Int) - 1) =
      .error .valueError ∧
    random_sample_by_year db2020 db2020 db2020 0 "2021" = .fatal .valueError :=
  ⟨rfl, rfl, rfl⟩

/-- Claim C2 (code bug): the count query sees three 2020 samples, the seed
draws offset 2 (within `[0, count-1]`), but a count/fetch race removes the
rows before the fetch query, which returns zero rows; the handler then
evaluates `cursor.fetchall()[0]` on an empty result and dies with an
uncaught `IndexError` — no internal retry, no not-found surfacing. -/
theorem c2_race_offset_crashes :
    (db2020.samples.filter (rowIn countWhere 2020)).length = 3 ∧
    randint 2 0 (((db2020.samples.filter (rowIn countWhere 2020)).length : Int) - 1) =
      .ok 2 ∧
    (emptyDb.samples.filter (rowIn fetchWhere 2020)).length = 0 ∧
    random_sample_by_year db2020 emptyDb emptyDb 2 "2020" = .fatal .indexError :=
  ⟨rfl, rfl, rfl, rfl⟩

/-- Claim C3, counterexample: a bulk request carrying the format-valid key
`"aa"` that is absent from the key store is not rejected — batch resolution
runs and the handler answers `ok`, so the claim that the key's existence
must be confirmed before any batch resolution is false on this code. -/
theorem c3_unregistered_key_passes_bulk :
    apiKeyExists emptyDb "aa" = false ∧
    bulk (fun _ => true) emptyDb ⟨some "aa", some []⟩ = .ok [] :=
  ⟨rfl, rfl⟩

/-- Claim C3 as amended: a bulk request is rejected before any batch
resolution unless it carries a present, non-empty API key that passes the
syntactic format check; the key store is never consulted on the bulk path
(the handler's outcome is independent of the registered keys), and a
present, format-valid key reaches batch resolution regardless of
registration.  There is still no key-free tier for bulk access. -/
theorem c3_bulk_gate (fmt : String → Bool) (db : Db) (req : BulkRequest) :
    (req.api_key_header.getD "" = "" →
      bulk fmt db req = .invalidUsage "API key required for this action" 400) ∧
    (∀ k, req.api_key_header = some k → k ≠ "" → fmt k = false →
      bulk fmt db req = .invalidUsage "API key format invalid" 400) ∧
    (∀ ks : List String, bulk fmt ⟨db.samples, ks⟩ req = bulk fmt db req) ∧
    (∀ k hs, req = ⟨some k, some hs⟩ → k ≠ "" → fmt k = true →
      bulk fmt db req = .ok (by_ids db (ids_by_hashes db hs))) := by
  refine ⟨?_, ?_, ?_, ?_⟩
  · intro hk
    simp [bulk, hk]
  · intro k hk hne hf
    simp [bulk, hk, hne, hf]
  · intro ks
    rfl
  · intro k hs hreq hne hf
    subst hreq
    simp [bulk, hne, hf]

/-- Witness for `c3_bulk_gate` at concrete inputs: a missing key and a
format-invalid key are each rejected. -/
theorem c3_bulk_gate_witness :
    bulk (fun _ => true) emptyDb ⟨none, some []⟩ =
      .invalidUsage "API key required for this action" 400 ∧
    bulk (fun _ => false) emptyDb ⟨some "aa", some []⟩ =
      .invalidUsage "API key format invalid" 400 :=
  ⟨(c3_bulk_gate (fun _ => true) emptyDb ⟨none, some []⟩).1 rfl,
   (c3_bulk_gate (fun _ => false) emptyDb ⟨some "aa", some []⟩).2.1 "aa" rfl
     (by decide) rfl⟩

/-- Claim C7: the count step and the offset-fetch step of the year-bounded
random draw restrict rows by exactly the same predicate — the half-open
calendar interval `[year-01-01 00:00:00, (year+1)-01-01 00:00:00)` on
`build_timestamp` — both at the level of the interpolated WHERE clauses and
at the level of whole rows (NULL handling included). -/
theorem c7_count_and_fetch_same_predicate (year : Int) (t : Timestamp) (s : Sample) :
    countWhere year t = fetchWhere year t ∧
    rowIn countWhere year s = rowIn fetchWhere year s :=
  ⟨rfl, rfl⟩

/-- Claim C10: `/stats/count` computes `COUNT(id)` and `/stats/count/sample`
computes `COUNT(*)` over the same `sample` table; whenever every row has a
non-NULL `id`, the two numbers agree. -/
theorem c10_count_id_eq_count_star (db : Db)
    (h : ∀ s ∈ db.samples, s.id.isSome) :
    stats_count db = stats_count_sample db := by
  have hf : db.samples.filter (fun s => s.id.isSome) = db.samples :=
    List.filter_eq_self.mpr (fun a ha => h a ha)
  simp [stats_count, stats_count_sample, hf]

/-- Witness for `c10_count_id_eq_count_star` on a concrete table whose three
rows all carry a non-NULL id. -/
theorem c10_count_id_eq_count_star_witness :
    stats_count db2020 = stats_count_sample db2020 :=
  c10_count_id_eq_count_star db2020 (by decide)

/-- Claim C4: on `GET /random_sample/<count>` with `1 <= count <= 50` the
draw proceeds with no API key consulted at all; with `count > 50` the
request is rejected before any sampling work unless the `X-ApiKey` header
carries a non-empty, format-valid, registered key — in particular a missing
key and a format-valid but unregistered key are each rejected with their
reason strings, and the draw runs exactly when all three key conditions
hold. -/
theorem c4_count_tier_gate (fmt : String → Bool) (rng : Nat → Nat) (db : Db)
    (cs : String) (c : Int) (hc : pyInt cs = some c) (hpos : 1 ≤ c) :
    (c ≤ 50 → ∀ key, random_samples fmt rng db key cs = .ok (random_by_id db rng c)) ∧
    (50 < c → random_samples fmt rng db none cs =
      .invalidUsage "Given count should be below 50 or you have to pass an API key" 400) ∧
    (50 < c → ∀ k, k ≠ "" → fmt k = true → apiKeyExists db k = false →
      random_samples fmt rng db (some k) cs = .invalidUsage "API key does not exist" 400) ∧
    (50 < c → ∀ key, (random_samples fmt rng db key cs = .ok (random_by_id db rng c) ↔
      (key.getD "" ≠ "" ∧ fmt (key.getD "") = true ∧
        apiKeyExists db (key.getD "") = true))) := by
  have h0 : ¬ c ≤ 0 := by omega
  refine ⟨?_, ?_, ?_, ?_⟩
  · intro h50 key
    have h51 : ¬ c > 50 := by omega
    simp [random_samples, hc, h0, h51]
  · intro h50
    simp [random_samples, hc, h0, h50]
  · intro h50 k hk hf he
    simp [random_samples, hc, h0, h50, hk, hf, he]
  · intro h50 key
    by_cases hk : key.getD "" = ""
    · simp [random_samples, hc, h0, h50, hk]
    · by_cases hf : fmt (key.getD "")
      · by_cases he : apiKeyExists db (key.getD "")
        · simp [random_samples, hc, h0, h50, hk, hf, he]
        · simp [random_samples, hc, h0, h50, hk, hf, he]
      · simp [random_samples, hc, h0, h50, hk, hf]

/-- Witness for `c4_count_tier_gate`: `count = 51` with no key is rejected,
`count = 51` with the format-valid unregistered key `"aa"` is rejected, and
`count = 50` with no key proceeds to the draw. -/
theorem c4_count_tier_gate_witness :
    random_samples (fun _ => true) (fun _ => 0) emptyDb none "51" =
      .invalidUsage "Given count should be below 50 or you have to pass an API key" 400 ∧
    random_samples (fun _ => true) (fun _ => 0) emptyDb (some "aa") "51" =
      .invalidUsage "API key does not exist" 400 ∧
    random_samples (fun _ => true) (fun _ => 0) emptyDb none "50" =
      .ok (random_by_id emptyDb (fun _ => 0) 50) :=
  ⟨(c4_count_tier_gate (fun _ => true) (fun _ => 0) emptyDb "51" 51 (by decide)
      (by decide)).2.1 (by decide),
   (c4_count_tier_gate (fun _ => true) (fun _ => 0) emptyDb "51" 51 (by decide)
      (by decide)).2.2.1 (by decide) "aa" (by decide) rfl rfl,
   (c4_count_tier_gate (fun _ => true) (fun _ => 0) emptyDb "50" 50 (by decide)
      (by decide)).1 (by decide) none⟩

/-- A string containing a non-hex character is rejected by `get_sample` with
the invalid-characters reason, whatever its length. -/
theorem get_sample_nonhex (db : Db) (h : String)
    (hx : h.toList.all isHexChar = false) :
    get_sample db h = .invalidUsage "Hash may only contain hex chars" 400 := by
  have hne : h ≠ "" := by
    intro he
    subst he
    simp at hx
  simp only [get_sample, if_neg hne]
  rw [hx]
  simp

/-- Claim C5: the three validation failures of `GET /sample/<hash>` are
distinct and each carries its own reason with client-error status 400: an
empty string is rejected as empty, a string with a non-hex character is
rejected for invalid characters, and an all-hex string of unsupported
length is rejected for its length; the three reason strings differ
pairwise. -/
theorem c5_distinct_validation_errors (db : Db) (h : String) :
    (get_sample db "" = .invalidUsage "Hash empty" 400) ∧
    (h.toList.all isHexChar = false →
      get_sample db h = .invalidUsage "Hash may only contain hex chars" 400) ∧
    (h.toList.all isHexChar = true → h ≠ "" →
      h.length ≠ 32 → h.length ≠ 40 → h.length ≠ 64 →
      get_sample db h =
        .invalidUsage "Hash is not of any of the following lengths: 64, 32, 40" 400) ∧
    ("Hash empty" ≠ "Hash may only contain hex chars" ∧
     "Hash empty" ≠ "Hash is not of any of the following lengths: 64, 32, 40" ∧
     "Hash may only contain hex chars" ≠
       "Hash is not of any of the following lengths: 64, 32, 40") := by
  refine ⟨rfl, ?_, ?_, by decide, by decide, by decide⟩
  · intro hx
    exact get_sample_nonhex db h hx
  · intro hx hne h32 h40 h64
    simp only [get_sample, if_neg hne]
    rw [hx]
    simp [h32, h40, h64]

/-- Witness for `c5_distinct_validation_errors` at the concrete inputs
`""`, `"xy"` and `"abc"`. -/
theorem c5_distinct_validation_errors_witness :
    get_sample emptyDb "" = .invalidUsage "Hash empty" 400 ∧
    get_sample emptyDb "xy" = .invalidUsage "Hash may only contain hex chars" 400 ∧
    get_sample emptyDb "abc" =
      .invalidUsage "Hash is not of any of the following lengths: 64, 32, 40" 400 :=
  ⟨(c5_distinct_validation_errors emptyDb "").1,
   (c5_distinct_validation_errors emptyDb "xy").2.1 (by decide),
   (c5_distinct_validation_errors emptyDb "abc").2.2.1 (by decide) (by decide)
     (by decide) (by decide) (by decide)⟩

/-- On an all-hex string of length 32, `get_sample` performs the MD5-column
lookup and returns its outcome. -/
theorem get_sample_dispatch_md5 (db : Db) (h : String)
    (hx : h.toList.all isHexChar = true) (hl : h.length = 32) :
    get_sample db h = lookupResult (by_hash_md5 db h) := by
  have hne : h ≠ "" := by
    intro he
    subst he
    simp at hl
  simp only [get_sample, if_neg hne]
  rw [hx, hl]
  cases hm : by_hash_md5 db h <;> simp [lookupResult, hm]

/-- On an all-hex string of length 40, `get_sample` performs the SHA-1-column
lookup and returns its outcome. -/
theorem get_sample_dispatch_sha1 (db : Db) (h : String)
    (hx : h.toList.all isHexChar = true) (hl : h.length = 40) :
    get_sample db h = lookupResult (by_hash_sha1 db h) := by
  have hne : h ≠ "" := by
    intro he
    subst he
    simp at hl
  simp only [get_sample, if_neg hne]
  rw [hx, hl]
  cases hm : by_hash_sha1 db h <;> simp [lookupResult, hm]

/-- On an all-hex string of length 64, `get_sample` performs the
SHA-256-column lookup and returns its outcome. -/
theorem get_sample_dispatch_sha256 (db : Db) (h : String)
    (hx : h.toList.all isHexChar = true) (hl : h.length = 64) :
    get_sample db h = lookupResult (by_hash_sha256 db h) := by
  have hne : h ≠ "" := by
    intro he
    subst he
    simp at hl
  simp only [get_sample, if_neg hne]
  rw [hx, hl]
  cases hm : by_hash_sha256 db h <;> simp [lookupResult, hm]

/-- Claim C6: an all-hex string of length 32, 40 or 64 is classified as
exactly MD5, SHA-1 or SHA-256 respectively (classification is a function,
hence deterministic) and `get_sample` dispatches to the lookup on the
corresponding hash column; and a string containing a non-hex character is
rejected by validation regardless of its length. -/
theorem c6_classification_and_dispatch (db : Db) (h : String) :
    (h.toList.all isHexChar = true →
      ((h.length = 32 → hash_algorithm h = some .md5 ∧
          get_sample db h = lookupResult (by_hash_md5 db h)) ∧
       (h.length = 40 → hash_algorithm h = some .sha1 ∧
          get_sample db h = lookupResult (by_hash_sha1 db h)) ∧
       (h.length = 64 → hash_algorithm h = some .sha256 ∧
          get_sample db h = lookupResult (by_hash_sha256 db h)))) ∧
    (h.toList.all isHexChar = false →
      get_sample db h = .invalidUsage "Hash may only contain hex chars" 400) := by
  constructor
  · intro hx
    refine ⟨fun hl => ⟨?_, get_sample_dispatch_md5 db h hx hl⟩,
      fun hl => ⟨?_, get_sample_dispatch_sha1 db h hx hl⟩,
      fun hl => ⟨?_, get_sample_dispatch_sha256 db h hx hl⟩⟩
    · simp [hash_algorithm, hl]
    · simp [hash_algorithm, hl]
    · simp [hash_algorithm, hl]
  · intro hx
    exact get_sample_nonhex db h hx

/-- Witness for `c6_classification_and_dispatch`: a 32-char hex string is
classified MD5 and looked up on the MD5 column; a string with a non-hex
character is rejected. -/
theorem c6_classification_and_dispatch_witness :
    (hash_algorithm "00000000000000000000000000000000" = some .md5 ∧
      get_sample emptyDb "00000000000000000000000000000000" =
        lookupResult (by_hash_md5 emptyDb "00000000000000000000000000000000")) ∧
    get_sample emptyDb "zz" = .invalidUsage "Hash may only contain hex chars" 400 :=
  ⟨((c6_classification_and_dispatch emptyDb
      "00000000000000000000000000000000").1 (by decide)).1 (by decide),
   (c6_classification_and_dispatch emptyDb "zz").2 (by decide)⟩

/-- Claim C8: a well-formed hash of supported length that matches no sample
surfaces as the distinct `notFound` signal, which differs from every
client-error (`invalidUsage`) outcome and from every uncaught-exception
(`fatal`) outcome. -/
theorem c8_not_found_is_distinct (db : Db) (h : String)
    (hx : h.toList.all isHexChar = true)
    (hlen : h.length = 32 ∨ h.length = 40 ∨ h.length = 64)
    (hmd5 : by_hash_md5 db h = none) (hsha1 : by_hash_sha1 db h = none)
    (hsha256 : by_hash_sha256 db h = none) :
    get_sample db h = .notFound ∧
    (∀ msg code, (HandlerResult.notFound : HandlerResult Sample) ≠
      .invalidUsage msg code) ∧
    (∀ e, (HandlerResult.notFound : HandlerResult Sample) ≠ .fatal e) := by
  refine ⟨?_, fun msg code => by simp, fun e => by simp⟩
  rcases hlen with hl | hl | hl
  · rw [get_sample_dispatch_md5 db h hx hl, hmd5]
    rfl
  · rw [get_sample_dispatch_sha1 db h hx hl, hsha1]
    rfl
  · rw [get_sample_dispatch_sha256 db h hx hl, hsha256]
    rfl

/-- Witness for `c8_not_found_is_distinct`: the all-zero MD5-length hash on
an empty corpus yields `notFound`. -/
theorem c8_not_found_is_distinct_witness :
    get_sample emptyDb "00000000000000000000000000000000" = .notFound :=
  (c8_not_found_is_distinct emptyDb "00000000000000000000000000000000"
    (by decide) (Or.inl (by decide)) rfl rfl rfl).1

/-- Once the year parameter has parsed to an in-range integer, the
year-bounded draw never produces a validation error: its remaining outcomes
are a successful draw or an uncaught exception. -/
theorem year_in_range_no_validation_error (dbC dbF dbR : Db) (seed : Nat)
    (s : String) (y : Int) (hp : pyInt s = some y)
    (h1 : ¬ y < 1970) (h2 : ¬ y > 3000) :
    (random_sample_by_year dbC dbF dbR seed s).isValidationError = false := by
  simp only [random_sample_by_year, hp, if_neg h1, if_neg h2]
  split
  · rfl
  · split <;> rfl

/-- Claim C9: `GET /random_sample/by_year/<year>` raises a validation error
exactly when the year parameter fails integer parsing, is strictly below
1970, or is strictly above 3000; every integer year in the inclusive range
`[1970, 3000]` — the boundary years included — passes validation. -/
theorem c9_year_bounds (dbC dbF dbR : Db) (seed : Nat) (s : String) :
    (random_sample_by_year dbC dbF dbR seed s).isValidationError = true ↔
      (pyInt s = none ∨ ∃ y, pyInt s = some y ∧ (y < 1970 ∨ 3000 < y)) := by
  cases hp : pyInt s with
  | none =>
    simp [random_sample_by_year, hp, HandlerResult.isValidationError]
  | some y =>
    by_cases h1 : y < 1970
    · simp [random_sample_by_year, hp, h1, HandlerResult.isValidationError]
    · by_cases h2 : y > 3000
      · simp [random_sample_by_year, hp, h1, h2, HandlerResult.isValidationError]
      · rw [year_in_range_no_validation_error dbC dbF dbR seed s y hp h1 h2]
        simp [hp, h1, h2]

/-- Witness for `c9_year_bounds`: the year 1969 fails validation and the
boundary year 1970 passes it. -/
theorem c9_year_bounds_witness :
    (random_sample_by_year emptyDb emptyDb emptyDb 0 "1969").isValidationError = true ∧
    (random_sample_by_year emptyDb emptyDb emptyDb 0 "1970").isValidationError = false := by
  constructor
  · exact (c9_year_bounds emptyDb emptyDb emptyDb 0 "1969").mpr
      (Or.inr ⟨1969, by decide, Or.inl (by decide)⟩)
  · have hp : pyInt "1970" = some 1970 := by decide
    rw [← Bool.not_eq_true, c9_year_bounds emptyDb emptyDb emptyDb 0 "1970"]
    rintro (hc | ⟨y, hy, hr⟩)
    · rw [hp] at hc
      cases hc
    · rw [hp] at hy
      injection hy with hy2
      subst hy2
      rcases hr with hr | hr <;> omega
